import Mathlib

/-!
# Verification of the heudiconv CLI dispatch engine (`heudiconv/cli/run.py`)

Shallow embedding of the session-dispatch orchestration implemented in
`src/heudiconv/cli/run.py`.  Pure computations (path joining, message
construction, command construction) are translated as Lean functions;
the per-session dispatch loop of `process_args` is translated as a step
function returning `Except` (Python exceptions become `.error`) together
with a trace of the observable collaborator calls (`Effect`); the state
touched by the datalad branch (which paths exist / hold an installed
dataset) is threaded explicitly as `FS`.

External collaborators that `run.py` imports from sibling modules not
present in the source tree (`get_annonimized_sid`, `add_to_datalad`) are
modelled from the specification and marked as such in their doc comments.
-/

/-- Python truthiness of an optional string argument (`None` and `""` are
falsy, every other string is truthy). -/
def truthyS : Option String → Bool
  | none => false
  | some s => !(s == "")

/-- `s.startswith('/')`: the first character of `s` is the separator. -/
def startsWithSlash (s : String) : Bool := s.data.head? == some '/'

/-- `s.endswith('/')`: the last character of `s` is the separator. -/
def endsWithSlash (s : String) : Bool := s.data.getLast? == some '/'

/-- `os.path.join(a, b)` restricted to the two-argument POSIX form used by
`run.py` (`opj(outdir, locator or '')`): an absolute second component
replaces the first; otherwise a separator is inserted unless the first
component is empty or already ends with one. -/
def opj (a b : String) : String :=
  if startsWithSlash b then b
  else if a == "" || endsWithSlash a then a ++ b
  else a ++ "/" ++ b

/-- The custom commands understood by `process_extra_commands`
(`run.py` lines 48-87); `other` stands for any unrecognized command
string, which raises `ValueError`. -/
inductive Command
  | treatJson
  | ls
  | populateTemplates
  | sanitizeJsons
  | other (name : String)
deriving DecidableEq

/-- The argparse namespace fields of `run.py` that the dispatch engine
reads (`args.*` in `main` / `process_args`).  Optional string arguments
default to `None` in the parser and are represented as `Option String`. -/
structure Args where
  converter : String
  outdir : String
  conv_outdir : Option String
  anon_cmd : Option String
  heuristic_file : String
  queue : Option String
  with_prov : Bool
  bids : Bool
  datalad : Bool
  debug : Bool
  command : Option Command
  files : List String
  dicom_dir_template : Option String
  minmeta : Bool

/-- A `StudySessionKey`: the `(locator, session, sid)` tuple iterated over
in `process_args` (`for (locator, session, sid), files_or_seqinfo in
study_sessions.items()`).  `locator` and `session` may be `None`. -/
structure SessionKey where
  locator : Option String
  session : Option String
  sid : String
deriving DecidableEq

/-- A session's payload, `files_or_seqinfo`: either a flat list of input
files or a dict from a sequence descriptor (`SeqInfo`, abstracted to its
key string) to the files of that sequence.  `run.py` discriminates with
`isinstance(files_or_seqinfo, dict)`. -/
inductive SessionPayload
  | fileList (files : List String)
  | seqMap (entries : List (String × List String))
deriving DecidableEq

/-- `len(files_or_seqinfo)`: length of the list, or number of keys of the
dict. -/
def payloadLen : SessionPayload → Nat
  | .fileList fs => fs.length
  | .seqMap es => es.length

/-- Total number of input files of a payload:
`len(sum(seqinfo.values(), [])) if seqinfo else len(dicoms)`
(`run.py` line 297). -/
def fileCount : SessionPayload → Nat
  | .fileList fs => fs.length
  | .seqMap es => (es.map (fun e => e.2.length)).sum

/-- Python exceptions raised by the code under verification. -/
inductive PyError
  | valueError (msg : String)
  | notImplementedError (msg : String)
  | unboundLocal (name : String)
  | typeError (msg : String)
deriving DecidableEq

/-- Observable collaborator calls performed by `main` / `process_args`,
recorded as a trace in iteration order. -/
inductive Effect
  | treatJsonFiles (files : List String)
  | lsSessions (files : List String)
  | populateTemplatesFiles (files : List String)
  | sanitizeJsonFiles (files : List String)
  | loadHeuristic (path : String)
  | groupSessions
  | warnSkip (sid : String)
  | anonResolve (cmd sid : String)
  | ensureInstall (root path msg : String)
  | convert (sid : String) (dicoms : Option (List String)) (outdir : String)
      (anon_sid : String) (anon_outdir : String)
      (seqinfo : Option (List (String × List String)))
  | commit (root path msg : String)
  | writeScript (name : String) (lines : List String)
  | submit (cmd : String)
deriving DecidableEq

/-- Abstract filesystem / datalad state read by the datalad branch of the
dispatch loop: which paths exist (`os.path.exists`) and which hold an
installed dataset (`Dataset(path).is_installed()`). -/
structure FS where
  pathExists : String → Bool
  installed : String → Bool

/-- External collaborators abstracted as oracles: `anonExt cmd sid` is the
single-line output of the anonymization command `cmd` run on `sid`. -/
structure Collab where
  anonExt : String → String → String

/-- Modelled from the spec: `get_annonimized_sid` is imported by `run.py`
from a sibling module that is not part of the provided source.  Per §4.2
of the specification, an absent anonymization command yields the subject
id unchanged, a present one yields the external command's single-line
output (abstracted by `Collab.anonExt`). -/
def get_annonimized_sid (collab : Collab) (sid : String)
    (anon_cmd : Option String) : String :=
  if truthyS anon_cmd then collab.anonExt (anon_cmd.getD "") sid else sid

/-- Modelled from the spec: `add_to_datalad` is imported by `run.py` from a
sibling module that is not part of the provided source.  Per §4.6 of the
specification it installs/initializes the versioned store at `path`
(under `root`), after which the root exists and the dataset at `path` is
installed. -/
def add_to_datalad (fs : FS) (root path : String) : FS :=
  { pathExists := fun q => q == root || q == path || fs.pathExists q,
    installed := fun q => q == path || fs.installed q }

/-- `study_outdir = opj(outdir, locator or '')` (`run.py` line 283); also
used for `anon_study_outdir` (line 286).  Depends only on the root and
the locator, not on subject id or session label. -/
def study_outdir (outdir : String) (locator : Option String) : String :=
  opj outdir (locator.getD "")

/-- `anon_outdir = args.conv_outdir or outdir` (`run.py` line 285): the
anonymized root is the configured conversion root when truthy, else the
raw root. -/
def anon_outdir (conv_outdir : Option String) (outdir : String) : String :=
  if truthyS conv_outdir then conv_outdir.getD "" else outdir

/-- `datalad_msg_suf` (`run.py` lines 291-298): `' %s' % anon_sid`, then
`", session %s" % session` if the session label is truthy, then
`", %d sequences" % len(seqinfo)` if the payload is a sequence map (the
dispatcher only reaches this with a non-empty payload), then
`", %d dicoms" % <total file count>`. -/
def dataladMsgSuf (anon_sid : String) (session : Option String)
    (payload : SessionPayload) : String :=
  let s := " " ++ anon_sid
  let s := if truthyS session then s ++ ", session " ++ session.getD "" else s
  let s := match payload with
    | .seqMap es => s ++ ", " ++ toString es.length ++ " sequences"
    | .fileList _ => s
  s ++ ", " ++ toString (fileCount payload) ++ " dicoms"

/-- The post-conversion commit message
`"Converted subject %s" % datalad_msg_suf` (`run.py` line 325). -/
def commitMsg (anon_sid : String) (session : Option String)
    (payload : SessionPayload) : String :=
  "Converted subject " ++ dataladMsgSuf anon_sid session payload

/-- The pre-conversion install message
`"Preparing for %s" % datalad_msg_suf` (`run.py` line 304). -/
def prepMsg (anon_sid : String) (session : Option String)
    (payload : SessionPayload) : String :=
  "Preparing for " ++ dataladMsgSuf anon_sid session payload

/-- The datalad pre-registration step (`run.py` lines 299-305):
`ds = Dataset(anon_study_outdir); if not exists(anon_outdir) or not
ds.is_installed(): add_to_datalad(anon_outdir, anon_study_outdir, ...)`.
Returns the new state and the install effects performed. -/
def dataladEnsure (fs : FS) (root path msg : String) : FS × List Effect :=
  if !(fs.pathExists root) || !(fs.installed path) then
    (add_to_datalad fs root path, [.ensureInstall root path msg])
  else (fs, [])

/-- The `dicoms` variable of the dispatch loop (`run.py` lines 235-241):
the file list for a FileList payload, `None` for a dict payload. -/
def payloadDicoms : SessionPayload → Option (List String)
  | .fileList fs => some fs
  | .seqMap _ => none

/-- The `seqinfo` variable of the dispatch loop (`run.py` lines 235-241):
the grouped map for a SequenceMap payload, `None` for a file list. -/
def payloadSeqinfo : SessionPayload → Option (List (String × List String))
  | .fileList _ => none
  | .seqMap es => some es

/-- The local-execution tail of one dispatch iteration (`run.py` lines
281-331): anonymized-id resolution (`get_annonimized_sid`), output-path
resolution, optional datalad pre-registration, the `convert_dicoms` call,
and the optional datalad commit with the descriptive message. -/
def localExecution (collab : Collab) (args : Args) (fs : FS)
    (key : SessionKey) (payload : SessionPayload) : FS × List Effect :=
  let anon_sid := get_annonimized_sid collab key.sid args.anon_cmd
  let anonEff : List Effect :=
    if truthyS args.anon_cmd then
      [.anonResolve (args.anon_cmd.getD "") key.sid]
    else []
  let sOut := study_outdir args.outdir key.locator
  let aRoot := anon_outdir args.conv_outdir args.outdir
  let aOut := study_outdir aRoot key.locator
  let pre : FS × List Effect :=
    if args.datalad then
      dataladEnsure fs aRoot aOut (prepMsg anon_sid key.session payload)
    else (fs, [])
  let convEff : List Effect :=
    [.convert key.sid (payloadDicoms payload) sOut anon_sid aOut
        (payloadSeqinfo payload)]
  let postEff : List Effect :=
    if args.datalad then
      [.commit args.outdir sOut (commitMsg anon_sid key.session payload)]
    else []
  (pre.1, anonEff ++ pre.2 ++ convEff ++ postEff)

/-- One iteration of the dispatch loop of `process_args`
(`run.py` lines 229-331) on a single `(key, payload)` session:
1. `if not len(files_or_seqinfo): raise ValueError("nothing to process?")`;
2. payload-shape discrimination into `dicoms` / `seqinfo`;
3. `if locator == 'unknown': warn and continue`;
4. `if args.queue:`: a sequence-map payload raises `NotImplementedError`;
   otherwise the batch command-line construction (lines 259-264)
   references the local variable `study_outdir`, which is only ever
   assigned on the local-execution path (line 283) and hence is unbound
   whenever a queue is configured, raising `UnboundLocalError`;
5. local execution: anonymized-id resolution, path resolution, optional
   datalad pre-registration, conversion, optional datalad commit. -/
def processSession (collab : Collab) (args : Args) (fs : FS)
    (key : SessionKey) (payload : SessionPayload) :
    Except PyError (FS × List Effect) :=
  if payloadLen payload = 0 then
    .error (.valueError "nothing to process?")
  else
    if key.locator = some "unknown" then
      .ok (fs, [.warnSkip key.sid])
    else if truthyS args.queue then
      if (payloadSeqinfo payload).isSome then
        .error (.notImplementedError
          "we already groupped them so need to add a switch to avoid any groupping, so no outdir prefix doubled etc")
      else
        .error (.unboundLocal "study_outdir")
    else
      .ok (localExecution collab args fs key payload)

/-- The effect trace of a single dispatch iteration (state dropped). -/
def stepEffects (collab : Collab) (args : Args) (fs : FS)
    (key : SessionKey) (payload : SessionPayload) :
    Except PyError (List Effect) :=
  (processSession collab args fs key payload).map (fun r => r.2)

/-- The dispatch loop of `process_args` over the ordered session
collection: sessions are processed in iteration order; the first raised
exception aborts the remaining queue.  Returns the final state, the trace
of the successfully processed prefix, and the aborting error if any. -/
def runSessions (collab : Collab) (args : Args) :
    FS → List (SessionKey × SessionPayload) →
    FS × List Effect × Option PyError
  | fs, [] => (fs, [], none)
  | fs, (key, payload) :: rest =>
    match processSession collab args fs key payload with
    | .error e => (fs, [], some e)
    | .ok (fs1, eff) =>
      let r := runSessions collab args fs1 rest
      (r.1, eff ++ r.2.1, r.2.2)

/-- `process_extra_commands` (`run.py` lines 48-87): each known command
performs its collaborator calls and returns; an unknown command raises
`ValueError`.  The `ls` and `populate-templates` commands load the
heuristic themselves. -/
def process_extra_commands (args : Args) (c : Command) :
    Except PyError (List Effect) :=
  match c with
  | .treatJson => .ok [.treatJsonFiles args.files]
  | .ls => .ok [.loadHeuristic args.heuristic_file, .lsSessions args.files]
  | .populateTemplates =>
    .ok [.loadHeuristic args.heuristic_file, .populateTemplatesFiles args.files]
  | .sanitizeJsons => .ok [.sanitizeJsonFiles args.files]
  | .other n => .error (.valueError ("Unknown command " ++ n))

/-- `process_args` (`run.py` lines 199-341): if a custom command is set it
is executed first and control then falls through (there is no early
return) to the regular operation — heuristic loading, session grouping,
and the dispatch loop.  The grouped session collection returned by the
`get_study_sessions` collaborator is a parameter. -/
def process_args (collab : Collab) (args : Args) (fs : FS)
    (sessions : List (SessionKey × SessionPayload)) :
    List Effect × Option PyError :=
  match args.command with
  | some c =>
    match process_extra_commands args c with
    | .error e => ([], some e)
    | .ok extra =>
      let r := runSessions collab args fs sessions
      (extra ++ [.loadHeuristic args.heuristic_file, .groupSessions] ++ r.2.1,
       r.2.2)
  | none =>
    let r := runSessions collab args fs sessions
    ([.loadHeuristic args.heuristic_file, .groupSessions] ++ r.2.1, r.2.2)

/-- `main` (`run.py` lines 90-113; named `cliMain` here because Lean
reserves the top-level name `main`): after argument parsing, supplying
both an explicit file list and a dicom directory template raises
`ValueError` before `process_args` is reached. -/
def cliMain (collab : Collab) (args : Args) (fs : FS)
    (sessions : List (SessionKey × SessionPayload)) :
    List Effect × Option PyError :=
  if !args.files.isEmpty && truthyS args.dicom_dir_template then
    ([], some (.valueError "Specify files or dicom_dir_template, not both"))
  else
    process_args collab args fs sessions

/-- The batch command-line token list of `run.py` lines 259-264, i.e. the
argument of `' '.join([...])`, parameterized over the value the local
`study_outdir` would need to have (in batch mode it is in fact unbound):
`['python', progname, '-o', study_outdir, '-f', heuristic.filename,
'-s', sid, '--anon-cmd', args.anon_cmd, '-c', args.converter]`.
`args.anon_cmd` (possibly `None`) is included unconditionally, unlike
`--ses`, `--with-prov` and `--bids` on the lines below it. -/
def convertcmdTokens (progname study_outdir heur_filename sid : String)
    (anon_cmd : Option String) (converter : String) : List (Option String) :=
  [some "python", some progname, some "-o", some study_outdir,
   some "-f", some heur_filename, some "-s", some sid,
   some "--anon-cmd", anon_cmd, some "-c", some converter]

/-- Python `sep.join(xs)` over a list that may contain `None`: joining a
`None` element raises `TypeError`. -/
def pyJoin (sep : String) (xs : List (Option String)) : Except PyError String :=
  if xs.all Option.isSome then
    .ok (String.intercalate sep (xs.map (fun x => x.getD "")))
  else
    .error (.typeError "sequence item: expected str instance, NoneType found")

/-- True for the four command strings `process_extra_commands` handles. -/
def knownCommand : Command → Bool
  | .other _ => false
  | _ => true

/-! ## Concrete fixtures used by witnesses and counterexamples -/

/-- Fixture oracle: the anonymization command prints `anon-<sid>`. -/
def collab0 : Collab := ⟨fun _ sid => "anon-" ++ sid⟩

/-- Fixture state: nothing exists, nothing is installed. -/
def fs0 : FS := ⟨fun _ => false, fun _ => false⟩

/-- Fixture config: batch queue `main`, anonymization command absent,
provenance and BIDS flags off (the C1 scenario of §8 of the spec).
Fields: converter, outdir, conv_outdir, anon_cmd, heuristic_file, queue,
with_prov, bids, datalad, debug, command, files, dicom_dir_template,
minmeta. -/
def argsC1 : Args :=
  ⟨"dcm2niix", "/out", none, none, "/h/heur.py", some "main",
   false, false, false, false, none, [], none, false⟩

/-- Fixture config: batch queue `main` with an anonymization command
configured. -/
def argsC5 : Args :=
  ⟨"dcm2niix", "/out", none, some "/bin/anon", "/h/heur.py", some "main",
   false, false, false, false, none, [], none, false⟩

/-- Fixture config: plain local execution, no queue, no datalad. -/
def argsLocal : Args :=
  ⟨"dcm2niix", "/out", none, none, "/h/heur.py", none,
   false, false, false, false, none, [], none, false⟩

/-- Fixture config: local execution with datalad mode enabled. -/
def argsD : Args :=
  ⟨"dcm2niix", "/out", none, none, "/h/heur.py", none,
   false, false, true, false, none, [], none, false⟩

/-- Fixture config: both an explicit file list and a dicom directory
template supplied. -/
def argsC9 : Args :=
  ⟨"dcm2niix", "/out", none, none, "/h/heur.py", none,
   false, false, false, false, none, ["f1"], some "/data/sub", false⟩

/-- Fixture config: custom command `treat-json` set. -/
def argsC10 : Args :=
  ⟨"dcm2niix", "/out", none, none, "/h/heur.py", none,
   false, false, false, false, some Command.treatJson, ["j1.json"], none,
   false⟩

/-! ## String containment infrastructure -/

/-- `pat` occurs as a contiguous substring of `s`. -/
def strContains (s pat : String) : Prop := pat.data <:+: s.data

instance (s pat : String) : Decidable (strContains s pat) :=
  List.decidableInfix pat.data s.data

theorem strContains_self (a : String) : strContains a a :=
  ⟨[], [], by simp⟩

theorem strContains_appL (a b pat : String) (h : strContains a pat) :
    strContains (a ++ b) pat := by
  obtain ⟨u, v, huv⟩ := h
  exact ⟨u, v ++ b.data, by rw [String.data_append, ← huv]; simp⟩

theorem strContains_appR (a b pat : String) (h : strContains b pat) :
    strContains (a ++ b) pat := by
  obtain ⟨u, v, huv⟩ := h
  exact ⟨a.data ++ u, v, by rw [String.data_append, ← huv]; simp⟩

/-! ## Structure of the datalad commit message -/

/-- `datalad_msg_suf` flattened into its four segments (the two optional
segments are empty strings when absent). -/
theorem dataladMsgSuf_eq (a : String) (s : Option String) (p : SessionPayload) :
    dataladMsgSuf a s p =
      " " ++ a
      ++ (if truthyS s then ", session " ++ s.getD "" else "")
      ++ (match p with
          | .seqMap es => ", " ++ toString es.length ++ " sequences"
          | .fileList _ => "")
      ++ (", " ++ toString (fileCount p) ++ " dicoms") := by
  cases hts : truthyS s <;> cases p <;>
    simp only [dataladMsgSuf, hts, if_true, if_false, Bool.false_eq_true,
      String.append_assoc, String.append_empty, String.empty_append]

theorem msgSuf_contains_anon (a : String) (s : Option String)
    (p : SessionPayload) : strContains (dataladMsgSuf a s p) a := by
  rw [dataladMsgSuf_eq]
  exact strContains_appL _ _ _ (strContains_appL _ _ _
    (strContains_appL _ _ _ (strContains_appR _ _ _ (strContains_self a))))

theorem msgSuf_contains_session (a : String) (s : Option String)
    (p : SessionPayload) (h : truthyS s = true) :
    strContains (dataladMsgSuf a s p) (", session " ++ s.getD "") := by
  rw [dataladMsgSuf_eq, h]
  simp only [if_true]
  exact strContains_appL _ _ _ (strContains_appL _ _ _
    (strContains_appR _ _ _ (strContains_self _)))

theorem msgSuf_contains_sequences (a : String) (s : Option String)
    (es : List (String × List String)) :
    strContains (dataladMsgSuf a s (.seqMap es))
      (", " ++ toString es.length ++ " sequences") := by
  rw [dataladMsgSuf_eq]
  exact strContains_appL _ _ _ (strContains_appR _ _ _ (strContains_self _))

theorem msgSuf_contains_dicoms (a : String) (s : Option String)
    (p : SessionPayload) :
    strContains (dataladMsgSuf a s p)
      (", " ++ toString (fileCount p) ++ " dicoms") := by
  rw [dataladMsgSuf_eq]
  exact strContains_appR _ _ _ (strContains_self _)

theorem commitMsg_contains (pat a : String) (s : Option String)
    (p : SessionPayload) (h : strContains (dataladMsgSuf a s p) pat) :
    strContains (commitMsg a s p) pat :=
  strContains_appR _ _ _ h

/-! ## Dispatch-loop lemmas -/

/-- A session with an empty payload raises
`ValueError("nothing to process?")` as the first action of its iteration
(`run.py` lines 231-232). -/
theorem processSession_empty (collab : Collab) (args : Args) (fs : FS)
    (key : SessionKey) (p : SessionPayload) (hp : payloadLen p = 0) :
    processSession collab args fs key p
      = .error (.valueError "nothing to process?") := by
  simp [processSession, hp]

/-! ## Claims -/

/-- C1 (code_bug evidence): on a batch-mode FileList dispatch with the
anonymization command absent, no command line is emitted at all: the
dispatch raises `UnboundLocalError` for `study_outdir`, which is only
assigned on the local-execution path.  Moreover the command-line token
list of lines 259-264 contains `--anon-cmd` unconditionally, and joining
it raises `TypeError` when `args.anon_cmd` is `None` — so the claimed
omission of absent flags cannot hold on any execution of this code. -/
theorem C1_batch_flags_bug :
    stepEffects collab0 argsC1 fs0 ⟨some "studyA", none, "s1"⟩
        (.fileList ["f1", "f2"])
      = .error (.unboundLocal "study_outdir")
    ∧ some "--anon-cmd"
        ∈ convertcmdTokens "/h/run.py" "/out/studyA" "/h/heur.py" "s1" none
            "dcm2niix"
    ∧ pyJoin " "
        (convertcmdTokens "/h/run.py" "/out/studyA" "/h/heur.py" "s1" none
          "dcm2niix")
      = .error (.typeError
          "sequence item: expected str instance, NoneType found") := by
  refine ⟨rfl, ?_, rfl⟩
  simp [convertcmdTokens]

/-- C5 (code_bug evidence): a batch-mode FileList dispatch (here even with
an anonymization command configured) raises `UnboundLocalError` for
`study_outdir` before the script file `dicom-<sid>.sh` is written and
before the submission command is invoked: the trace is an error with no
`writeScript` and no `submit` effect. -/
theorem C5_batch_submit_bug :
    stepEffects collab0 argsC5 fs0 ⟨some "studyB", none, "s5"⟩
        (.fileList ["f5"])
      = .error (.unboundLocal "study_outdir") := rfl

/-- C2: if every session before an empty-payload session completes without
error, the dispatch loop aborts with `ValueError("nothing to process?")`
when it reaches the empty session, and the resulting trace is exactly the
trace of the preceding sessions — no session after it contributes any
effect (neither conversion, queueing, nor a skip warning). -/
theorem C2_empty_payload_aborts (collab : Collab) (args : Args) (fs : FS)
    (pre : List (SessionKey × SessionPayload)) (key : SessionKey)
    (p : SessionPayload) (post : List (SessionKey × SessionPayload))
    (hp : payloadLen p = 0)
    (hpre : (runSessions collab args fs pre).2.2 = none) :
    (runSessions collab args fs (pre ++ (key, p) :: post)).2.1
        = (runSessions collab args fs pre).2.1
    ∧ (runSessions collab args fs (pre ++ (key, p) :: post)).2.2
        = some (.valueError "nothing to process?") := by
  induction pre generalizing fs with
  | nil =>
    simp [runSessions, processSession_empty collab args fs key p hp]
  | cons hd tl ih =>
    obtain ⟨k0, p0⟩ := hd
    simp only [List.cons_append, runSessions] at hpre ⊢
    cases hstep : processSession collab args fs k0 p0 with
    | error e => simp [hstep] at hpre
    | ok r =>
      obtain ⟨fs1, eff⟩ := r
      simp only [hstep] at hpre ⊢
      have h := ih fs1 hpre
      simp [h.1, h.2]

/-- C2 witness: a valid session, then an empty one, then a valid one; the
run aborts at the empty session and the trailing session is never
processed. -/
theorem C2_empty_payload_aborts_witness :
    (runSessions collab0 argsLocal fs0
        [(⟨some "A", none, "s1"⟩, .fileList ["f1"]),
         (⟨some "B", none, "s2"⟩, .fileList []),
         (⟨some "C", none, "s3"⟩, .fileList ["f2"])]).2.1
      = (runSessions collab0 argsLocal fs0
          [(⟨some "A", none, "s1"⟩, .fileList ["f1"])]).2.1
    ∧ (runSessions collab0 argsLocal fs0
        [(⟨some "A", none, "s1"⟩, .fileList ["f1"]),
         (⟨some "B", none, "s2"⟩, .fileList []),
         (⟨some "C", none, "s3"⟩, .fileList ["f2"])]).2.2
      = some (.valueError "nothing to process?") :=
  C2_empty_payload_aborts collab0 argsLocal fs0
    [(⟨some "A", none, "s1"⟩, .fileList ["f1"])] ⟨some "B", none, "s2"⟩
    (.fileList []) [(⟨some "C", none, "s3"⟩, .fileList ["f2"])] rfl rfl

/-- C3: a non-empty session whose locator is the sentinel `"unknown"` is
skipped with exactly one warning effect: no anonymized-id resolution, no
path-dependent effect, no conversion, no batch effect; the loop then
continues with the next session, whose results are unchanged. -/
theorem C3_unknown_locator_skips (collab : Collab) (args : Args) (fs : FS)
    (ses : Option String) (sid : String) (p : SessionPayload)
    (rest : List (SessionKey × SessionPayload))
    (hne : payloadLen p ≠ 0) :
    processSession collab args fs ⟨some "unknown", ses, sid⟩ p
        = .ok (fs, [.warnSkip sid])
    ∧ (runSessions collab args fs ((⟨some "unknown", ses, sid⟩, p) :: rest)).2.1
        = .warnSkip sid :: (runSessions collab args fs rest).2.1
    ∧ (runSessions collab args fs ((⟨some "unknown", ses, sid⟩, p) :: rest)).2.2
        = (runSessions collab args fs rest).2.2 := by
  have hstep : processSession collab args fs ⟨some "unknown", ses, sid⟩ p
      = .ok (fs, [.warnSkip sid]) := by
    simp [processSession, hne]
  exact ⟨hstep, by simp [runSessions, hstep], by simp [runSessions, hstep]⟩

/-- C3 witness: an unknown-locator session followed by a regular one. -/
theorem C3_unknown_locator_skips_witness :
    processSession collab0 argsLocal fs0 ⟨some "unknown", none, "s2"⟩
        (.fileList ["f3"])
      = .ok (fs0, [.warnSkip "s2"])
    ∧ (runSessions collab0 argsLocal fs0
        [(⟨some "unknown", none, "s2"⟩, .fileList ["f3"]),
         (⟨some "A", none, "s1"⟩, .fileList ["f1"])]).2.1
      = .warnSkip "s2"
        :: (runSessions collab0 argsLocal fs0
            [(⟨some "A", none, "s1"⟩, .fileList ["f1"])]).2.1
    ∧ (runSessions collab0 argsLocal fs0
        [(⟨some "unknown", none, "s2"⟩, .fileList ["f3"]),
         (⟨some "A", none, "s1"⟩, .fileList ["f1"])]).2.2
      = (runSessions collab0 argsLocal fs0
          [(⟨some "A", none, "s1"⟩, .fileList ["f1"])]).2.2 :=
  C3_unknown_locator_skips collab0 argsLocal fs0 none "s2" (.fileList ["f3"])
    [(⟨some "A", none, "s1"⟩, .fileList ["f1"])] (by decide)

/-- C4: dispatching a non-empty pre-grouped SequenceMap session while a
batch queue is configured raises `NotImplementedError`; the iteration
produces no effects at all, in particular no script write and no
submission. -/
theorem C4_seqmap_batch_unsupported (collab : Collab) (args : Args) (fs : FS)
    (loc ses : Option String) (sid : String)
    (es : List (String × List String))
    (hq : truthyS args.queue = true) (hne : es ≠ [])
    (hloc : loc ≠ some "unknown") :
    processSession collab args fs ⟨loc, ses, sid⟩ (.seqMap es)
      = .error (.notImplementedError
          "we already groupped them so need to add a switch to avoid any groupping, so no outdir prefix doubled etc") := by
  have hlen : ¬ payloadLen (SessionPayload.seqMap es) = 0 := by
    simpa [payloadLen, List.length_eq_zero] using hne
  simp [processSession, payloadSeqinfo, hlen, hq, hloc]

/-- C4 witness. -/
theorem C4_seqmap_batch_unsupported_witness :
    processSession collab0 argsC1 fs0 ⟨some "studyA", none, "s4"⟩
        (.seqMap [("seq1", ["f1", "f2"])])
      = .error (.notImplementedError
          "we already groupped them so need to add a switch to avoid any groupping, so no outdir prefix doubled etc") :=
  C4_seqmap_batch_unsupported collab0 argsC1 fs0 (some "studyA") none "s4"
    [("seq1", ["f1", "f2"])] rfl (by decide) (by decide)

/-- C9: when both an explicit file list and a dicom directory template are
supplied, `main` raises `ValueError` with an empty effect trace: the
heuristic is not loaded, sessions are not grouped, and no session is
processed. -/
theorem C9_files_and_template (collab : Collab) (args : Args) (fs : FS)
    (sessions : List (SessionKey × SessionPayload))
    (hf : args.files ≠ []) (ht : truthyS args.dicom_dir_template = true) :
    cliMain collab args fs sessions
      = ([], some (.valueError
          "Specify files or dicom_dir_template, not both")) := by
  have hfe : args.files.isEmpty = false := by
    cases h : args.files with
    | nil => exact absurd h hf
    | cons a l => rfl
  simp [cliMain, hfe, ht]

/-- C9 witness. -/
theorem C9_files_and_template_witness :
    cliMain collab0 argsC9 fs0 []
      = ([], some (.valueError
          "Specify files or dicom_dir_template, not both")) :=
  C9_files_and_template collab0 argsC9 fs0 [] (by decide) rfl

/-- C10: with any of the four known custom commands set, `process_args`
executes the extra command and then falls through to regular operation:
the trace continues with heuristic loading, session grouping, and the
dispatch loop over the sessions, whose outcome is unchanged. -/
theorem C10_command_falls_through (collab : Collab) (args : Args) (fs : FS)
    (sessions : List (SessionKey × SessionPayload)) (c : Command)
    (hc : args.command = some c) (hk : knownCommand c = true) :
    ∃ extra, process_extra_commands args c = .ok extra ∧
      process_args collab args fs sessions
        = (extra ++ [.loadHeuristic args.heuristic_file, .groupSessions]
              ++ (runSessions collab args fs sessions).2.1,
           (runSessions collab args fs sessions).2.2) := by
  cases c with
  | other n => simp [knownCommand] at hk
  | treatJson =>
    exact ⟨_, rfl, by simp [process_args, hc, process_extra_commands]⟩
  | ls =>
    exact ⟨_, rfl, by simp [process_args, hc, process_extra_commands]⟩
  | populateTemplates =>
    exact ⟨_, rfl, by simp [process_args, hc, process_extra_commands]⟩
  | sanitizeJsons =>
    exact ⟨_, rfl, by simp [process_args, hc, process_extra_commands]⟩

/-- C10 witness: `treat-json` runs and regular operation still follows. -/
theorem C10_command_falls_through_witness :
    ∃ extra, process_extra_commands argsC10 Command.treatJson = .ok extra ∧
      process_args collab0 argsC10 fs0 []
        = (extra ++ [.loadHeuristic argsC10.heuristic_file, .groupSessions]
              ++ (runSessions collab0 argsC10 fs0 []).2.1,
           (runSessions collab0 argsC10 fs0 []).2.2) :=
  C10_command_falls_through collab0 argsC10 fs0 [] Command.treatJson rfl rfl

/-- C6 counterexample: with an empty/absent locator the resolved output
directory is not `root` alone — `opj(outdir, '')` appends a trailing
separator, yielding `root ++ "/"`. -/
theorem C6_empty_locator_counterexample :
    study_outdir "/out" none ≠ "/out" := by decide

/-- C6 (amended): for a root that is non-empty and has no trailing
separator, the resolved output directory is `root ++ "/" ++ locator` for
a (relative) locator and `root ++ "/"` — the same directory as `root`,
with a trailing separator — when the locator is empty or absent; it
depends only on the root and the locator (`study_outdir` takes no subject
or session argument); the anonymized root is the configured conversion
root when one is configured (truthy) and the raw root otherwise. -/
theorem C6_output_paths (outdir : String) (conv : Option String)
    (h1 : (outdir == "") = false) (h2 : endsWithSlash outdir = false) :
    study_outdir outdir none = outdir ++ "/"
    ∧ study_outdir outdir (some "") = outdir ++ "/"
    ∧ (∀ loc : String, startsWithSlash loc = false →
        study_outdir outdir (some loc) = outdir ++ "/" ++ loc)
    ∧ (truthyS conv = true → anon_outdir conv outdir = conv.getD "")
    ∧ (truthyS conv = false → anon_outdir conv outdir = outdir) := by
  have h0 : startsWithSlash "" = false := by decide
  refine ⟨?_, ?_, ?_, ?_, ?_⟩
  · simp [study_outdir, opj, h0, h1, h2, String.append_empty]
  · simp [study_outdir, opj, h0, h1, h2, String.append_empty]
  · intro loc hloc
    simp [study_outdir, opj, hloc, h1, h2]
  · intro h
    simp [anon_outdir, h]
  · intro h
    simp [anon_outdir, h]

/-- C6 witness: concrete path resolutions. -/
theorem C6_output_paths_witness :
    study_outdir "/out" none = "/out" ++ "/"
    ∧ study_outdir "/out" (some "loc") = "/out" ++ "/" ++ "loc"
    ∧ anon_outdir (some "/anon") "/out" = "/anon" :=
  ⟨(C6_output_paths "/out" (some "/anon") rfl rfl).1,
   (C6_output_paths "/out" (some "/anon") rfl rfl).2.2.1 "loc" rfl,
   (C6_output_paths "/out" (some "/anon") rfl rfl).2.2.2.1 rfl⟩

/-- C7: the datalad pre-registration performs an install exactly when the
anonymized output root does not exist or the dataset at the session's
output location is not installed, and a second invocation right after a
first one never performs a second installation (idempotence). -/
theorem C7_ensure_idempotent (fs : FS) (root path msg : String) :
    ((dataladEnsure fs root path msg).2 = []
      ↔ (fs.pathExists root = true ∧ fs.installed path = true))
    ∧ (dataladEnsure (dataladEnsure fs root path msg).1 root path msg).2
        = [] := by
  unfold dataladEnsure add_to_datalad
  cases he : fs.pathExists root <;> cases hi : fs.installed path <;>
    simp [he, hi]

/-- C8 counterexample: for a FileList session processed locally in datalad
mode, the commit message contains no sequence count at all — the code
only appends `", %d sequences"` when the payload is a pre-grouped
sequence map. -/
theorem C8_filelist_message_counterexample :
    stepEffects collab0 argsD fs0 ⟨some "loc", none, "s8"⟩
        (.fileList ["f1", "f2"])
      = .ok [.ensureInstall "/out" "/out/loc" "Preparing for  s8, 2 dicoms",
             .convert "s8" (some ["f1", "f2"]) "/out/loc" "s8" "/out/loc"
               none,
             .commit "/out" "/out/loc" "Converted subject  s8, 2 dicoms"]
    ∧ ¬ strContains "Converted subject  s8, 2 dicoms" "sequences" :=
  ⟨rfl, by decide⟩

/-- C8 (amended): in datalad mode, a locally processed session's trace
contains a commit of the session's output location whose message contains
the anonymized subject id (equal to the subject id when no anonymization
command is configured), the session label when one is present, the number
of sequences when the payload is a pre-grouped sequence map, and the
total number of files processed. -/
theorem C8_commit_message (collab : Collab) (args : Args) (fs : FS)
    (loc ses : Option String) (sid : String) (payload : SessionPayload)
    (hdl : args.datalad = true) (hq : truthyS args.queue = false)
    (hloc : loc ≠ some "unknown") (hne : payloadLen payload ≠ 0) :
    ∃ fs1 t,
      processSession collab args fs ⟨loc, ses, sid⟩ payload = .ok (fs1, t)
      ∧ Effect.commit args.outdir (study_outdir args.outdir loc)
          (commitMsg (get_annonimized_sid collab sid args.anon_cmd) ses
            payload) ∈ t
      ∧ strContains
          (commitMsg (get_annonimized_sid collab sid args.anon_cmd) ses
            payload)
          (get_annonimized_sid collab sid args.anon_cmd)
      ∧ (truthyS ses = true →
          strContains
            (commitMsg (get_annonimized_sid collab sid args.anon_cmd) ses
              payload)
            (", session " ++ ses.getD ""))
      ∧ (∀ es, payload = .seqMap es →
          strContains
            (commitMsg (get_annonimized_sid collab sid args.anon_cmd) ses
              payload)
            (", " ++ toString es.length ++ " sequences"))
      ∧ strContains
          (commitMsg (get_annonimized_sid collab sid args.anon_cmd) ses
            payload)
          (", " ++ toString (fileCount payload) ++ " dicoms") := by
  refine ⟨(localExecution collab args fs ⟨loc, ses, sid⟩ payload).1,
          (localExecution collab args fs ⟨loc, ses, sid⟩ payload).2,
          ?_, ?_, ?_, ?_, ?_, ?_⟩
  · simp [processSession, hne, hloc, hq]
  · simp [localExecution, hdl]
  · exact commitMsg_contains _ _ _ _ (msgSuf_contains_anon _ _ _)
  · intro h
    exact commitMsg_contains _ _ _ _ (msgSuf_contains_session _ _ _ h)
  · intro es hes
    subst hes
    exact commitMsg_contains _ _ _ _ (msgSuf_contains_sequences _ _ _)
  · exact commitMsg_contains _ _ _ _ (msgSuf_contains_dicoms _ _ _)

/-- C8 witness: a SequenceMap session with a session label, processed in
datalad mode with an anonymization command configured. -/
theorem C8_commit_message_witness :
    ∃ fs1 t,
      processSession collab0
          ⟨"dcm2niix", "/out", none, some "/bin/anon", "/h/heur.py", none,
           false, false, true, false, none, [], none, false⟩ fs0
          ⟨some "loc", some "ses1", "s9"⟩ (.seqMap [("seq1", ["f1"])])
        = .ok (fs1, t)
      ∧ Effect.commit "/out" (study_outdir "/out" (some "loc"))
          (commitMsg
            (get_annonimized_sid collab0 "s9" (some "/bin/anon"))
            (some "ses1") (.seqMap [("seq1", ["f1"])])) ∈ t
      ∧ strContains
          (commitMsg (get_annonimized_sid collab0 "s9" (some "/bin/anon"))
            (some "ses1") (.seqMap [("seq1", ["f1"])]))
          (get_annonimized_sid collab0 "s9" (some "/bin/anon"))
      ∧ (truthyS (some "ses1") = true →
          strContains
            (commitMsg (get_annonimized_sid collab0 "s9" (some "/bin/anon"))
              (some "ses1") (.seqMap [("seq1", ["f1"])]))
            (", session " ++ (some "ses1").getD ""))
      ∧ (∀ es, (SessionPayload.seqMap [("seq1", ["f1"])])
            = SessionPayload.seqMap es →
          strContains
            (commitMsg (get_annonimized_sid collab0 "s9" (some "/bin/anon"))
              (some "ses1") (.seqMap [("seq1", ["f1"])]))
            (", " ++ toString es.length ++ " sequences"))
      ∧ strContains
          (commitMsg (get_annonimized_sid collab0 "s9" (some "/bin/anon"))
            (some "ses1") (.seqMap [("seq1", ["f1"])]))
          (", " ++ toString (fileCount (.seqMap [("seq1", ["f1"])]))
            ++ " dicoms") :=
  C8_commit_message collab0
    ⟨"dcm2niix", "/out", none, some "/bin/anon", "/h/heur.py", none,
     false, false, true, false, none, [], none, false⟩ fs0
    (some "loc") (some "ses1") "s9" (.seqMap [("seq1", ["f1"])])
    rfl rfl (by decide) (by decide)
